import Mathlib

/-!
Shallow embedding of the bidirectional sync engine in
`tools/repo-obsidian-sync/repo_obsidian_sync.py` (class `RepoObsidianSync`),
together with proofs about its per-file decision procedure
(`get_sync_action`), its action executor (`sync_file`), its state store,
and its state-file loader (`load_state`).

The embedding models one (source file, target file) pair of filesystem
slots as `PairWorld`, the persisted JSON state as `SyncState`, and the
MD5 content fingerprint as an injective, content-only digest that never
collides with the empty-string sentinel returned when a read fails.
File modification times (`st_mtime`) are modelled as integers: only their
order is ever consulted by the program.
-/

namespace RepoObsidianSync

/-- Action strings returned by `get_sync_action` and consumed by
`sync_file` (lines 177-272 of the source). -/
inductive Action
  | skip
  | deleteTarget
  | deleteSource
  | repoToObsidian
  | obsidianToRepo
  | conflict
deriving DecidableEq, Repr

/-- One filesystem file: its byte content, its `st_mtime`, and whether
opening it for reading succeeds (`readable = false` models the
permission-error / vanished-file cases that `get_file_hash` swallows). -/
structure FSFile where
  content : String
  mtime : Int
  readable : Bool
deriving DecidableEq, Repr

/-- The two filesystem slots of one sync pair path: the source-side file
and the target-side file, each possibly absent. -/
structure PairWorld where
  source : Option FSFile
  target : Option FSFile
deriving DecidableEq, Repr

/-- One value of the persisted `state['files']` mapping
(lines 257-261 of the source). -/
structure StateEntry where
  hash : String
  mtime : Int
  last_sync : String
deriving DecidableEq, Repr

/-- The persisted sync state (`{"files": {}, "last_sync": {}}`), embedded
as association lists: a later binding for the same key shadows an earlier
one, which matches Python dict assignment for lookup purposes. -/
structure SyncState where
  files : List (String × StateEntry)
  last_sync : List (String × String)
deriving DecidableEq, Repr

/-- The default state `{"files": {}, "last_sync": {}}` returned by
`load_state` when no usable state file exists (line 139). -/
def emptyState : SyncState := ⟨[], []⟩

/-- The state-store key `f"{source_file}:{target_file}"`
(lines 195 and 256 of the source). -/
def stateKey (source_path target_path : String) : String :=
  source_path ++ ":" ++ target_path

/-- Dictionary lookup in `state['files']`. -/
def SyncState.lookupFile (st : SyncState) (key : String) : Option StateEntry :=
  st.files.lookup key

/-- Dictionary assignment `state['files'][key] = entry`: the new binding
shadows any older one. -/
def SyncState.insertFile (st : SyncState) (key : String) (e : StateEntry) : SyncState :=
  { st with files := (key, e) :: st.files }

/-- Content fingerprint `hashlib.md5(f.read()).hexdigest()` from
`get_file_hash` (line 153), embedded as an injective, content-only digest.
Its range avoids `""`, the sentinel returned on a failed read, just as a
real MD5 hex digest is never the empty string. -/
def md5 (s : String) : String := ⟨'#' :: s.data⟩

/-- `get_file_hash` (lines 149-155): the MD5 digest of the file's bytes,
or the empty-string sentinel when opening or reading the file raises. -/
def get_file_hash (file : Option FSFile) : String :=
  match file with
  | none => ""
  | some f => if f.readable then md5 f.content else ""

/-- `get_sync_action` (lines 177-218): the per-file decision procedure.
Mirrors the source branch for branch: neither exists → skip; source
absent, target present → delete-target; source present, target absent →
delete-source when a state entry exists for the pair, otherwise
repo-to-obsidian; both present → skip on equal hashes, else newer mtime
wins, with an exact tie mapping to conflict. -/
def get_sync_action (state : SyncState) (source_path target_path : String)
    (w : PairWorld) : Action :=
  match w.source, w.target with
  | none, none => .skip
  | none, some _ => .deleteTarget
  | some _, none =>
      if (state.lookupFile (stateKey source_path target_path)).isSome then
        .deleteSource
      else
        .repoToObsidian
  | some s, some t =>
      if get_file_hash (some s) = get_file_hash (some t) then
        .skip
      else if s.mtime > t.mtime then
        .repoToObsidian
      else if t.mtime > s.mtime then
        .obsidianToRepo
      else
        .conflict

/-- Result of executing `sync_file` on one pair: the filesystem slots
afterwards, the in-memory state afterwards, and the returned boolean. -/
structure ExecResult where
  world : PairWorld
  state : SyncState
  success : Bool
deriving DecidableEq, Repr

/-- The copy branch of `sync_file` (lines 243-262). `repoToObs` selects
which slot is `src` and which is `dst` (line 244-245). When `dry_run` is
set, the `shutil.copy2` is skipped but the `state['files']` update on
lines 255-261 still runs, exactly as in the source, where that update sits
outside the dry-run guard. A real copy succeeds when no I/O error occurs
(`io_ok`) and the winning file is readable; it writes the winning file's
bytes and mtime to the losing slot (`shutil.copy2` preserves mtime). If
`src` is absent, `src.stat()` raises and the enclosing handler returns
`False` with nothing mutated. -/
def copyExec (dry_run io_ok : Bool) (now source_path target_path : String)
    (w : PairWorld) (st : SyncState) (repoToObs : Bool) : ExecResult :=
  let src := if repoToObs then w.source else w.target
  match src with
  | none => ⟨w, st, false⟩
  | some f =>
      if dry_run then
        ⟨w, st.insertFile (stateKey source_path target_path)
            ⟨get_file_hash (some f), f.mtime, now⟩, true⟩
      else if io_ok && f.readable then
        let copied : FSFile := ⟨f.content, f.mtime, true⟩
        let w' := if repoToObs then { w with target := some copied }
                  else { w with source := some copied }
        ⟨w', st.insertFile (stateKey source_path target_path)
            ⟨get_file_hash (some f), f.mtime, now⟩, true⟩
      else ⟨w, st, false⟩

/-- `sync_file` (lines 220-272): executes one action. `io_ok` models
whether the filesystem mutation (`unlink` / `copy2`) raises; `now` is
`datetime.now().isoformat()`. A delete in dry-run mode only logs; a real
delete succeeds when no I/O error occurs and the file is present
(unlinking an absent file raises). The conflict branch logs and returns
`False` without touching anything. -/
def sync_file (dry_run io_ok : Bool) (now source_path target_path : String)
    (w : PairWorld) (st : SyncState) (action : Action) : ExecResult :=
  match action with
  | .skip => ⟨w, st, true⟩
  | .deleteTarget =>
      if dry_run then ⟨w, st, true⟩
      else if io_ok && w.target.isSome then ⟨{ w with target := none }, st, true⟩
      else ⟨w, st, false⟩
  | .deleteSource =>
      if dry_run then ⟨w, st, true⟩
      else if io_ok && w.source.isSome then ⟨{ w with source := none }, st, true⟩
      else ⟨w, st, false⟩
  | .repoToObsidian => copyExec dry_run io_ok now source_path target_path w st true
  | .obsidianToRepo => copyExec dry_run io_ok now source_path target_path w st false
  | .conflict => ⟨w, st, false⟩

/-- The per-file action choice made inside `_sync_directory`
(lines 377-380): with `force` set, every file present on the source side
gets `repo-to-obsidian` and everything else gets `skip`; otherwise the
decision procedure runs. -/
def sync_directory_action (force : Bool) (state : SyncState)
    (source_path target_path : String) (w : PairWorld) : Action :=
  if force then
    if w.source.isSome then .repoToObsidian else .skip
  else
    get_sync_action state source_path target_path w

/-- Python-level failure modes that matter to the embedding. -/
inductive PyError
  | attributeError
deriving DecidableEq, Repr

/-- `load_state` (lines 131-139). `parsed` is the result of
`json.load`: `some st` when the file parses, `none` when opening or
parsing raises. The exception handler on line 138 evaluates
`self.logger.warning`; `logger_initialized` records whether
`setup_logging` has already created that attribute. When it has not, the
attribute access itself raises `AttributeError`, which propagates out of
the handler; otherwise the handler logs and control falls through to the
default return on line 139. -/
def load_state (state_file_exists : Bool) (parsed : Option SyncState)
    (logger_initialized : Bool) : Except PyError SyncState :=
  if state_file_exists then
    match parsed with
    | some st => Except.ok st
    | none =>
        if logger_initialized then Except.ok emptyState
        else Except.error PyError.attributeError
  else Except.ok emptyState

/-- The state-loading step of `__init__` (lines 111-115):
`self.state = self.load_state()` runs on line 114, before
`self.setup_logging()` on line 115, so the logger attribute does not yet
exist while `load_state` runs. -/
def init_load_state (state_file_exists : Bool) (parsed : Option SyncState) :
    Except PyError SyncState :=
  load_state state_file_exists parsed false

/-- One `sync_file` invocation as recorded in a run trace: its mode
flags, wall-clock string, the two absolute paths, the filesystem slots it
sees, and the action it executes. -/
structure FileOp where
  dry_run : Bool
  io_ok : Bool
  now : String
  source_path : String
  target_path : String
  world : PairWorld
  action : Action
deriving DecidableEq, Repr

/-- Execute one trace entry against the current in-memory state. -/
def runOp (st : SyncState) (op : FileOp) : ExecResult :=
  sync_file op.dry_run op.io_ok op.now op.source_path op.target_path op.world st op.action

/-- Thread the in-memory state through a list of `sync_file` invocations,
as one or more passes of the orchestrator do. -/
def exec_ops (st : SyncState) : List FileOp → SyncState
  | [] => st
  | op :: rest => exec_ops (runOp st op).state rest

/-- The state-store key of a trace entry. -/
def op_key (op : FileOp) : String := stateKey op.source_path op.target_path

/-- Whether a trace entry executes one of the two copy actions. -/
def op_is_copy (op : FileOp) : Prop :=
  op.action = Action.repoToObsidian ∨ op.action = Action.obsidianToRepo

instance (op : FileOp) : Decidable (op_is_copy op) := by
  unfold op_is_copy; infer_instance

/-- Whether a trace entry's execution returns `True`. The executor's
return value never depends on the in-memory state (proved below), so it
is evaluated against the empty store. -/
def op_succeeds (op : FileOp) : Prop := (runOp emptyState op).success = true

instance (op : FileOp) : Decidable (op_succeeds op) := by
  unfold op_succeeds; infer_instance

/-- Every file slot that is present in the world is readable. -/
def PairWorld.readable_all (w : PairWorld) : Bool :=
  (match w.source with | none => true | some f => f.readable) &&
  (match w.target with | none => true | some f => f.readable)

/-- The embedded digest is injective: distinct contents give distinct
fingerprints (the collision-free idealisation of MD5 that the program's
equality test relies on). -/
theorem md5_injective {a b : String} (h : md5 a = md5 b) : a = b := by
  have hd : '#' :: a.data = '#' :: b.data := congrArg String.data h
  have hdd : a.data = b.data := by injection hd
  calc a = String.mk a.data := rfl
    _ = String.mk b.data := by rw [hdd]

/-- C1 counterexample: with an empty state store, a pair whose source is
absent and whose target exists is still classified `delete-target`, so the
target would be deleted even though no state entry records a prior sync. -/
theorem C1_counterexample :
    (emptyState.lookupFile (stateKey "repo/a.md" "vault/a.md")) = none ∧
    get_sync_action emptyState "repo/a.md" "vault/a.md"
      ⟨none, some ⟨"doc", 5, true⟩⟩ = Action.deleteTarget := by
  decide

/-- C1 (amended): when the source file is absent and the target file is
present, `get_sync_action` returns `delete-target` unconditionally, for
every state store — it never consults the state store in this branch. -/
theorem C1_delete_target_unconditional (st : SyncState) (sp tp : String) (f : FSFile) :
    get_sync_action st sp tp ⟨none, some f⟩ = Action.deleteTarget := rfl

/-- C2: evaluating `sync_file` at a dry-run copy action shows the bug the
claim denies: the filesystem slots are untouched, yet a fresh
`state['files']` entry is created (the state update on lines 255-261 sits
outside the dry-run guard, and `main` persists `self.state`
unconditionally on line 552). -/
theorem C2_dry_run_updates_state :
    sync_file true true "2026-01-01T00:00:00" "repo/a.md" "vault/a.md"
      ⟨some ⟨"new", 5, true⟩, some ⟨"old", 1, true⟩⟩ emptyState Action.repoToObsidian =
    ⟨⟨some ⟨"new", 5, true⟩, some ⟨"old", 1, true⟩⟩,
     ⟨[(stateKey "repo/a.md" "vault/a.md", ⟨md5 "new", 5, "2026-01-01T00:00:00"⟩)], []⟩,
     true⟩ := by
  decide

/-- C3: when the state file exists but cannot be parsed, `__init__`'s call
to `load_state` raises `AttributeError` instead of falling back to the
empty store, because the exception handler evaluates `self.logger` before
`setup_logging` has created it; had the logger existed, the fallback to
`{"files": {}, "last_sync": {}}` would have been reached. -/
theorem C3_corrupt_state_file_raises :
    init_load_state true none = Except.error PyError.attributeError ∧
    load_state true none true = Except.ok emptyState :=
  ⟨rfl, rfl⟩

/-- C6: with the source present and the target absent, the decision
procedure returns `delete-source` when a state entry exists for the
(source, target) key and `repo-to-obsidian` when none exists. -/
theorem C6_target_missing (st : SyncState) (sp tp : String) (f : FSFile) :
    ((st.lookupFile (stateKey sp tp)).isSome = true →
      get_sync_action st sp tp ⟨some f, none⟩ = Action.deleteSource) ∧
    ((st.lookupFile (stateKey sp tp)).isSome = false →
      get_sync_action st sp tp ⟨some f, none⟩ = Action.repoToObsidian) := by
  constructor <;> intro h <;> simp [get_sync_action, h]

/-- Witness for C6 at concrete inputs: a one-entry store yields
`delete-source`, the empty store yields `repo-to-obsidian`. -/
theorem C6_witness :
    get_sync_action ⟨[(stateKey "s" "t", ⟨"", 0, ""⟩)], []⟩ "s" "t"
      ⟨some ⟨"c", 0, true⟩, none⟩ = Action.deleteSource ∧
    get_sync_action emptyState "s" "t"
      ⟨some ⟨"c", 0, true⟩, none⟩ = Action.repoToObsidian :=
  ⟨(C6_target_missing ⟨[(stateKey "s" "t", ⟨"", 0, ""⟩)], []⟩ "s" "t" ⟨"c", 0, true⟩).1
      (by decide),
   (C6_target_missing emptyState "s" "t" ⟨"c", 0, true⟩).2 (by decide)⟩

/-- C7: when both files exist and their hashes differ, a strictly newer
source yields `repo-to-obsidian` and a strictly newer target yields
`obsidian-to-repo`. -/
theorem C7_tie_break (st : SyncState) (sp tp : String) (fs ft : FSFile)
    (hne : get_file_hash (some fs) ≠ get_file_hash (some ft)) :
    (fs.mtime > ft.mtime →
      get_sync_action st sp tp ⟨some fs, some ft⟩ = Action.repoToObsidian) ∧
    (ft.mtime > fs.mtime →
      get_sync_action st sp tp ⟨some fs, some ft⟩ = Action.obsidianToRepo) := by
  constructor <;> intro h
  · simp [get_sync_action, hne, h]
  · have h2 : ¬ fs.mtime > ft.mtime := by omega
    simp [get_sync_action, hne, h, h2]

/-- Witness for C7 at concrete inputs: swapping which side is newer swaps
the action direction. -/
theorem C7_witness :
    get_sync_action emptyState "s" "t"
      ⟨some ⟨"a", 2, true⟩, some ⟨"b", 1, true⟩⟩ = Action.repoToObsidian ∧
    get_sync_action emptyState "s" "t"
      ⟨some ⟨"a", 1, true⟩, some ⟨"b", 2, true⟩⟩ = Action.obsidianToRepo :=
  ⟨(C7_tie_break emptyState "s" "t" ⟨"a", 2, true⟩ ⟨"b", 1, true⟩ (by decide)).1 (by decide),
   (C7_tie_break emptyState "s" "t" ⟨"a", 1, true⟩ ⟨"b", 2, true⟩ (by decide)).2 (by decide)⟩

/-- C8: two readable files with different content and exactly equal
mtimes are classified `conflict`, and executing the conflict action
mutates neither the filesystem slots nor the state, for every mode. -/
theorem C8_conflict (st : SyncState) (sp tp : String) (fs ft : FSFile)
    (hrs : fs.readable = true) (hrt : ft.readable = true)
    (hc : fs.content ≠ ft.content) (hm : fs.mtime = ft.mtime) :
    get_sync_action st sp tp ⟨some fs, some ft⟩ = Action.conflict ∧
    (∀ (dry_run io_ok : Bool) (now : String) (w : PairWorld) (st2 : SyncState),
      sync_file dry_run io_ok now sp tp w st2 Action.conflict = ⟨w, st2, false⟩) := by
  constructor
  · have hne : get_file_hash (some fs) ≠ get_file_hash (some ft) := by
      intro hmd
      simp [get_file_hash, hrs, hrt] at hmd
      exact hc (md5_injective hmd)
    have h1 : ¬ fs.mtime > ft.mtime := by omega
    have h2 : ¬ ft.mtime > fs.mtime := by omega
    simp [get_sync_action, hne, h1, h2]
  · intro dry_run io_ok now w st2
    rfl

/-- Witness for C8 at a concrete input: equal mtimes, different bytes,
conflict reported and nothing changed by executing it. -/
theorem C8_witness :
    get_sync_action emptyState "s" "t"
      ⟨some ⟨"a", 3, true⟩, some ⟨"b", 3, true⟩⟩ = Action.conflict ∧
    sync_file false true "now" "s" "t"
      ⟨some ⟨"a", 3, true⟩, some ⟨"b", 3, true⟩⟩ emptyState Action.conflict =
      ⟨⟨some ⟨"a", 3, true⟩, some ⟨"b", 3, true⟩⟩, emptyState, false⟩ :=
  have h := C8_conflict emptyState "s" "t" ⟨"a", 3, true⟩ ⟨"b", 3, true⟩
    rfl rfl (by decide) rfl
  ⟨h.1, h.2 false true "now" ⟨some ⟨"a", 3, true⟩, some ⟨"b", 3, true⟩⟩ emptyState⟩

/-- C9: with the force flag set, every file present on the source side is
assigned `repo-to-obsidian` regardless of the state store, hashes, or
timestamps, and a file present only on the target side is assigned
`skip`, whose execution mutates nothing and succeeds. -/
theorem C9_force (st : SyncState) (sp tp : String) (w : PairWorld) :
    (w.source.isSome = true →
      sync_directory_action true st sp tp w = Action.repoToObsidian) ∧
    (w.source = none →
      sync_directory_action true st sp tp w = Action.skip ∧
      ∀ (dry_run io_ok : Bool) (now : String) (st2 : SyncState),
        sync_file dry_run io_ok now sp tp w st2 Action.skip = ⟨w, st2, true⟩) := by
  constructor
  · intro h
    simp [sync_directory_action, h]
  · intro h
    exact ⟨by simp [sync_directory_action, h], fun _ _ _ _ => rfl⟩

/-- Witness for C9 at concrete inputs: a source-present file is forced to
`repo-to-obsidian`, a target-only file gets `skip`. -/
theorem C9_witness :
    sync_directory_action true emptyState "s" "t"
      ⟨some ⟨"x", 0, true⟩, none⟩ = Action.repoToObsidian ∧
    sync_directory_action true emptyState "s" "t"
      ⟨none, some ⟨"y", 0, true⟩⟩ = Action.skip :=
  ⟨(C9_force emptyState "s" "t" ⟨some ⟨"x", 0, true⟩, none⟩).1 (by decide),
   ((C9_force emptyState "s" "t" ⟨none, some ⟨"y", 0, true⟩⟩).2 rfl).1⟩

/-- C10: when both files exist but both reads fail, the two sentinel
hashes compare equal and the pair is classified `skip`, even though the
actual contents differ. -/
theorem C10_unreadable_pair_skips (st : SyncState) (sp tp : String) (fs ft : FSFile)
    (hrs : fs.readable = false) (hrt : ft.readable = false)
    (_hc : fs.content ≠ ft.content) :
    get_sync_action st sp tp ⟨some fs, some ft⟩ = Action.skip := by
  simp [get_sync_action, get_file_hash, hrs, hrt]

/-- Witness for C10 at a concrete input: two unreadable files with
different bytes are skipped. -/
theorem C10_witness :
    get_sync_action emptyState "s" "t"
      ⟨some ⟨"a", 0, false⟩, some ⟨"b", 9, false⟩⟩ = Action.skip :=
  C10_unreadable_pair_skips emptyState "s" "t" ⟨"a", 0, false⟩ ⟨"b", 9, false⟩
    rfl rfl (by decide)

/-- Lookup after a dictionary assignment: the key written is present, and
any other key is present exactly when it was before. -/
theorem lookupFile_insertFile (st : SyncState) (k k' : String) (e : StateEntry) :
    ((st.insertFile k e).lookupFile k').isSome = true ↔
      k' = k ∨ (st.lookupFile k').isSome = true := by
  by_cases h : k' = k
  · simp [SyncState.insertFile, SyncState.lookupFile, List.lookup, h]
  · have hb : (k' == k) = false := by simp [h]
    simp [SyncState.insertFile, SyncState.lookupFile, List.lookup, hb, h]

/-- One `sync_file` execution adds the pair's key to `state['files']`
exactly when the action is a copy and the execution returns `True`;
every other key keeps its previous membership. -/
theorem runOp_state_lookup (st : SyncState) (op : FileOp) (k : String) :
    (((runOp st op).state.lookupFile k).isSome = true) ↔
      (k = op_key op ∧ op_is_copy op ∧ op_succeeds op) ∨
        (st.lookupFile k).isSome = true := by
  rcases op with ⟨d, io, now, sp, tp, w, a⟩
  cases a
  case skip => simp [runOp, sync_file, op_is_copy]
  case conflict => simp [runOp, sync_file, op_is_copy]
  case deleteTarget =>
    cases d
    · cases hio : io && w.target.isSome <;>
        simp [runOp, sync_file, hio, op_is_copy]
    · simp [runOp, sync_file, op_is_copy]
  case deleteSource =>
    cases d
    · cases hio : io && w.source.isSome <;>
        simp [runOp, sync_file, hio, op_is_copy]
    · simp [runOp, sync_file, op_is_copy]
  case repoToObsidian =>
    cases hsrc : w.source
    · simp [runOp, sync_file, copyExec, hsrc, op_is_copy, op_succeeds, op_key,
        emptyState, SyncState.lookupFile]
    · cases d
      · rename_i f
        rcases f with ⟨fc, fm, fr⟩
        cases io <;> cases fr <;>
          simp_all [runOp, sync_file, copyExec, hsrc, op_is_copy, op_succeeds,
            op_key, lookupFile_insertFile]
      · rename_i f
        simp [runOp, sync_file, copyExec, hsrc, op_is_copy, op_succeeds, op_key,
          lookupFile_insertFile]
  case obsidianToRepo =>
    cases hsrc : w.target
    · simp [runOp, sync_file, copyExec, hsrc, op_is_copy, op_succeeds, op_key,
        emptyState, SyncState.lookupFile]
    · cases d
      · rename_i f
        rcases f with ⟨fc, fm, fr⟩
        cases io <;> cases fr <;>
          simp_all [runOp, sync_file, copyExec, hsrc, op_is_copy, op_succeeds,
            op_key, lookupFile_insertFile]
      · rename_i f
        simp [runOp, sync_file, copyExec, hsrc, op_is_copy, op_succeeds, op_key,
          lookupFile_insertFile]

/-- The boolean returned by `sync_file` never depends on the in-memory
state it is given. -/
theorem runOp_success_blind (st st' : SyncState) (op : FileOp) :
    (runOp st op).success = (runOp st' op).success := by
  rcases op with ⟨d, io, now, sp, tp, w, a⟩
  cases a
  case skip => rfl
  case conflict => rfl
  case deleteTarget =>
    cases d
    · cases hio : io && w.target.isSome <;> simp [runOp, sync_file, hio]
    · rfl
  case deleteSource =>
    cases d
    · cases hio : io && w.source.isSome <;> simp [runOp, sync_file, hio]
    · rfl
  case repoToObsidian =>
    cases hsrc : w.source
    · simp [runOp, sync_file, copyExec, hsrc]
    · rename_i f
      cases d
      · cases hiof : io && f.readable <;> simp [runOp, sync_file, copyExec, hsrc, hiof]
      · simp [runOp, sync_file, copyExec, hsrc]
  case obsidianToRepo =>
    cases hsrc : w.target
    · simp [runOp, sync_file, copyExec, hsrc]
    · rename_i f
      cases d
      · cases hiof : io && f.readable <;> simp [runOp, sync_file, copyExec, hsrc, hiof]
      · simp [runOp, sync_file, copyExec, hsrc]

/-- Membership in `state['files']` after a run trace: a key is present at
the end exactly when it was present at the start or some entry of the
trace was a successful copy for that key. -/
theorem exec_ops_lookup (ops : List FileOp) (st : SyncState) (k : String) :
    ((exec_ops st ops).lookupFile k).isSome = true ↔
      (st.lookupFile k).isSome = true ∨
        ∃ op ∈ ops, k = op_key op ∧ op_is_copy op ∧ op_succeeds op := by
  induction ops generalizing st with
  | nil => simp [exec_ops]
  | cons op rest ih =>
      rw [exec_ops, ih, runOp_state_lookup]
      simp only [List.exists_mem_cons_iff]
      tauto

/-- A successful copy execution with dry-run off really reconciles the
pair: afterwards the source slot and the target slot carry equal content
hashes, because the winning file's bytes were written to the losing
side. -/
theorem copy_success_reconciles (st : SyncState) (op : FileOp)
    (hd : op.dry_run = false) (hc : op_is_copy op) (hs : op_succeeds op) :
    get_file_hash (runOp st op).world.source
      = get_file_hash (runOp st op).world.target := by
  rcases op with ⟨d, io, now, sp, tp, w, a⟩
  dsimp only at hd
  subst hd
  rcases hc with h | h <;> (dsimp only at h; subst h)
  · cases hsrc : w.source
    · simp [op_succeeds, runOp, sync_file, copyExec, hsrc] at hs
    · rename_i f
      rcases f with ⟨fc, fm, fr⟩
      cases io <;> cases fr <;>
        simp_all [op_succeeds, runOp, sync_file, copyExec, hsrc, get_file_hash]
  · cases hsrc : w.target
    · simp [op_succeeds, runOp, sync_file, copyExec, hsrc] at hs
    · rename_i f
      rcases f with ⟨fc, fm, fr⟩
      cases io <;> cases fr <;>
        simp_all [op_succeeds, runOp, sync_file, copyExec, hsrc, get_file_hash]

/-- C4 counterexample: a single dry-run repo-to-obsidian execution
returns `True` and inserts the pair's key into `state['files']`, yet it
mutates neither filesystem slot — source and target still hold different
bytes afterwards, so the key exists although the pair was never
reconciled. -/
theorem C4_counterexample :
    ((exec_ops emptyState
        [⟨true, true, "now", "s", "t",
          ⟨some ⟨"new", 5, true⟩, some ⟨"old", 1, true⟩⟩,
          Action.repoToObsidian⟩]).lookupFile (stateKey "s" "t")).isSome = true ∧
    (runOp emptyState
        ⟨true, true, "now", "s", "t",
          ⟨some ⟨"new", 5, true⟩, some ⟨"old", 1, true⟩⟩,
          Action.repoToObsidian⟩).success = true ∧
    (runOp emptyState
        ⟨true, true, "now", "s", "t",
          ⟨some ⟨"new", 5, true⟩, some ⟨"old", 1, true⟩⟩,
          Action.repoToObsidian⟩).world
      = ⟨some ⟨"new", 5, true⟩, some ⟨"old", 1, true⟩⟩ ∧
    get_file_hash (some ⟨"new", 5, true⟩) ≠ get_file_hash (some ⟨"old", 1, true⟩) := by
  decide

/-- C4 (amended): skip, conflict, and delete executions leave
`state['files']` untouched; a copy execution with dry-run off that
returns `True` really reconciles the pair (both slots hash equal
afterwards); and, starting from the empty store, over any trace of
non-dry-run executions a key is present in `state['files']` exactly when
some trace entry was a copy action for that exact (source, target) key
whose execution returned `True` — i.e. the pair was actually reconciled
at least once. (In dry-run mode a copy action also inserts the key while
reconciling nothing; that defect is the subject of C2.) -/
theorem C4_state_membership_nondry :
    (∀ (st : SyncState) (op : FileOp),
      (op.action = Action.skip ∨ op.action = Action.conflict ∨
       op.action = Action.deleteTarget ∨ op.action = Action.deleteSource) →
      (runOp st op).state = st) ∧
    (∀ (st : SyncState) (op : FileOp),
      op.dry_run = false → op_is_copy op → op_succeeds op →
      get_file_hash (runOp st op).world.source
        = get_file_hash (runOp st op).world.target) ∧
    (∀ (ops : List FileOp), (∀ op ∈ ops, op.dry_run = false) →
      ∀ (k : String),
      ((exec_ops emptyState ops).lookupFile k).isSome = true ↔
        ∃ op ∈ ops, k = op_key op ∧ op_is_copy op ∧ op_succeeds op) := by
  refine ⟨?_, copy_success_reconciles, ?_⟩
  · rintro st ⟨d, io, now, sp, tp, w, a⟩ (h | h | h | h) <;>
      (dsimp only at h; subst h)
    · rfl
    · rfl
    · cases d
      · cases hio : io && w.target.isSome <;> simp [runOp, sync_file, hio]
      · rfl
    · cases d
      · cases hio : io && w.source.isSome <;> simp [runOp, sync_file, hio]
      · rfl
  · intro ops _ k
    rw [exec_ops_lookup]
    simp [emptyState, SyncState.lookupFile]

/-- Witness for C4 at concrete inputs: executing a conflict leaves a
one-entry store unchanged; one successful non-dry-run repo-to-obsidian
copy leaves both slots hash-equal; and the corresponding one-op trace
creates exactly that pair's key. -/
theorem C4_witness :
    (runOp ⟨[("k", ⟨"h", 0, "t0"⟩)], []⟩
        ⟨false, true, "now", "s", "t", ⟨some ⟨"c", 1, true⟩, none⟩, Action.conflict⟩).state
      = ⟨[("k", ⟨"h", 0, "t0"⟩)], []⟩ ∧
    get_file_hash (runOp emptyState
        ⟨false, true, "now", "s", "t", ⟨some ⟨"c", 1, true⟩, none⟩,
          Action.repoToObsidian⟩).world.source
      = get_file_hash (runOp emptyState
        ⟨false, true, "now", "s", "t", ⟨some ⟨"c", 1, true⟩, none⟩,
          Action.repoToObsidian⟩).world.target ∧
    ((exec_ops emptyState
        [⟨false, true, "now", "s", "t", ⟨some ⟨"c", 1, true⟩, none⟩,
          Action.repoToObsidian⟩]).lookupFile (stateKey "s" "t")).isSome = true :=
  ⟨C4_state_membership_nondry.1 ⟨[("k", ⟨"h", 0, "t0"⟩)], []⟩
      ⟨false, true, "now", "s", "t", ⟨some ⟨"c", 1, true⟩, none⟩, Action.conflict⟩
      (Or.inr (Or.inl rfl)),
   C4_state_membership_nondry.2.1 emptyState
      ⟨false, true, "now", "s", "t", ⟨some ⟨"c", 1, true⟩, none⟩, Action.repoToObsidian⟩
      rfl (Or.inl rfl) (by decide),
   (C4_state_membership_nondry.2.2
      [⟨false, true, "now", "s", "t", ⟨some ⟨"c", 1, true⟩, none⟩,
        Action.repoToObsidian⟩] (by decide) (stateKey "s" "t")).mpr
     ⟨⟨false, true, "now", "s", "t", ⟨some ⟨"c", 1, true⟩, none⟩,
        Action.repoToObsidian⟩, by decide, rfl, Or.inl rfl, by decide⟩⟩

/-- C5 counterexample: a pair with different bytes and exactly equal
mtimes is classified `conflict`; executing that action changes nothing,
and the second pass classifies it `conflict` again, not `skip`. -/
theorem C5_counterexample :
    get_sync_action emptyState "s" "t"
      ⟨some ⟨"aa", 3, true⟩, some ⟨"bb", 3, true⟩⟩ = Action.conflict ∧
    get_sync_action
      (sync_file false true "now" "s" "t"
        ⟨some ⟨"aa", 3, true⟩, some ⟨"bb", 3, true⟩⟩ emptyState
        (get_sync_action emptyState "s" "t"
          ⟨some ⟨"aa", 3, true⟩, some ⟨"bb", 3, true⟩⟩)).state "s" "t"
      (sync_file false true "now" "s" "t"
        ⟨some ⟨"aa", 3, true⟩, some ⟨"bb", 3, true⟩⟩ emptyState
        (get_sync_action emptyState "s" "t"
          ⟨some ⟨"aa", 3, true⟩, some ⟨"bb", 3, true⟩⟩)).world ≠ Action.skip := by
  decide

/-- C5 (amended): for a pair whose first-pass action is not `conflict`,
when the filesystem operations succeed and every file present is
readable, deciding again after executing the first-pass action yields
`skip`. (A conflict pair yields `conflict` again on the second pass.) -/
theorem C5_idempotent_unless_conflict (io_ok : Bool) (now sp tp : String)
    (w : PairWorld) (st : SyncState)
    (hio : io_ok = true) (hr : w.readable_all = true)
    (hnc : get_sync_action st sp tp w ≠ Action.conflict) :
    get_sync_action
      (sync_file false io_ok now sp tp w st (get_sync_action st sp tp w)).state sp tp
      (sync_file false io_ok now sp tp w st (get_sync_action st sp tp w)).world
      = Action.skip := by
  subst hio
  rcases w with ⟨ws, wt⟩
  rcases ws with _ | s <;> rcases wt with _ | t
  · simp [get_sync_action, sync_file]
  · simp [get_sync_action, sync_file]
  · by_cases hl : (st.lookupFile (stateKey sp tp)).isSome
    · simp [get_sync_action, sync_file, hl]
    · have hsr : s.readable = true := by
        simpa [PairWorld.readable_all] using hr
      simp [get_sync_action, sync_file, copyExec, hl, hsr, get_file_hash]
  · have hrs : s.readable = true ∧ t.readable = true := by
      simpa [PairWorld.readable_all] using hr
    have hs' : get_file_hash (some s) = md5 s.content := by
      simp [get_file_hash, hrs.1]
    have ht' : get_file_hash (some t) = md5 t.content := by
      simp [get_file_hash, hrs.2]
    by_cases hh : get_file_hash (some s) = get_file_hash (some t)
    · simp [get_sync_action, sync_file, hh]
    · have hh' : ¬ md5 s.content = md5 t.content := by
        rw [hs', ht'] at hh
        exact hh
      rcases lt_trichotomy s.mtime t.mtime with hlt | heq | hgt
      · have h1 : ¬ t.mtime < s.mtime := by omega
        simp [get_sync_action, sync_file, copyExec, get_file_hash,
          hrs.1, hrs.2, hh', h1, hlt]
      · exfalso
        apply hnc
        have h1 : ¬ t.mtime < s.mtime := by omega
        have h2 : ¬ s.mtime < t.mtime := by omega
        simp [get_sync_action, get_file_hash, hrs.1, hrs.2, hh', h1, h2]
      · have h2 : ¬ s.mtime < t.mtime := by omega
        simp [get_sync_action, sync_file, copyExec, get_file_hash,
          hrs.1, hrs.2, hh', hgt, h2]

/-- Witness for C5 at a concrete input: a source-newer pair is copied on
the first pass and skipped on the second. -/
theorem C5_witness :
    get_sync_action
      (sync_file false true "now" "s" "t"
        ⟨some ⟨"a", 2, true⟩, some ⟨"b", 1, true⟩⟩ emptyState
        (get_sync_action emptyState "s" "t"
          ⟨some ⟨"a", 2, true⟩, some ⟨"b", 1, true⟩⟩)).state "s" "t"
      (sync_file false true "now" "s" "t"
        ⟨some ⟨"a", 2, true⟩, some ⟨"b", 1, true⟩⟩ emptyState
        (get_sync_action emptyState "s" "t"
          ⟨some ⟨"a", 2, true⟩, some ⟨"b", 1, true⟩⟩)).world = Action.skip :=
  C5_idempotent_unless_conflict true "now" "s" "t"
    ⟨some ⟨"a", 2, true⟩, some ⟨"b", 1, true⟩⟩ emptyState rfl (by decide) (by decide)

end RepoObsidianSync
